import Mathlib

/-!
Shallow embedding of the ScalpbotTbank trading core
(`src/strategy.py`, `src/risk_manager.py`, constants from `src/config.py`).

Modelling conventions:
* Python floats are modelled as `ℚ`; the float value NaN is modelled by `none`
  in `RVal := Option ℚ`, with the Python comparison semantics that every
  ordered comparison against NaN is `False`.
* A pandas DataFrame of candles is a list of rows together with flags saying
  which of the five named columns (`open`, `high`, `low`, `close`, `volume`)
  are present.  A cell is a number, a non-numeric (string-like) value, or NaN.
* Python exceptions are modelled with `Except PyError`; a `try/except` block
  is a `match` on the `Except` value.  Reading a local variable that was never
  assigned (the `risk_amount` slip in `calculate_position_size`) raises, which
  is modelled by `throw PyError.unboundLocalError` at the point of the read.
* Calls into the external `pandas_ta` indicator library (`ta.adx`, `ta.sma`,
  `ta.bbands`, `ta.rsi`, `ta.atr`) are modelled by an oracle record `Ta` over
  which theorems quantify: the library is an external collaborator, not part
  of this repository's source.
-/

namespace Scalpbot

/-! ### Configuration constants (`src/config.py`) -/

def RISK_PER_TRADE : ℚ := 1/100
def MIN_STOP_LOSS_PERCENT : ℚ := 2/1000
def STOP_LOSS_PERCENT : ℚ := 5/1000
def TAKE_PROFIT_RATIO : ℚ := 2
def ATR_STOP_MULTIPLIER : ℚ := 3/2
def ATR_PERIOD : ℕ := 14
def MAX_POSITION_SHARE_PER_INSTRUMENT : ℚ := 2/10
def MAX_TRADES_PER_INSTRUMENT_PER_DAY : ℕ := 5
def ADX_TREND_THRESHOLD : ℚ := 25
def ADX_PERIOD : ℕ := 14
def MIN_CANDLES_FOR_SIGNAL : ℕ := 60
def VOLUME_CONFIRMATION_WINDOW : ℕ := 20
def VOLUME_SPIKE_FACTOR : ℚ := 12/10
def MA_FAST_PERIOD : ℕ := 9
def MA_SLOW_PERIOD : ℕ := 21
def BB_PERIOD : ℕ := 20
def BB_STD_DEV : ℚ := 2
def RSI_PERIOD : ℕ := 14
def RSI_OVERBOUGHT : ℚ := 70
def RSI_OVERSOLD : ℚ := 30

/-! ### Python values, NaN semantics, exceptions -/

/-- A python exception kind relevant to the embedded code. -/
inductive PyError where
  | keyError
  | indexError
  | unboundLocalError
  | otherError
deriving DecidableEq, Repr

/-- A pandas cell: a numeric value, a non-numeric (string-like) value, or NaN. -/
inductive Cell where
  | num (q : ℚ)
  | str
  | nan
deriving DecidableEq, Repr

/-- `pd.to_numeric(·, errors="coerce")` on one cell: non-numeric becomes NaN. -/
def toNumericCell : Cell → Cell
  | .num q => .num q
  | .str => .nan
  | .nan => .nan

/-- `pd.isna` on one cell. -/
def isNaCell : Cell → Bool
  | .nan => true
  | _ => false

/-- A Python float that may be NaN: `none` is NaN. -/
abbrev RVal := Option ℚ

/-- Numeric value of a (numeric-or-NaN) cell. -/
def cellVal : Cell → RVal
  | .num q => some q
  | _ => none

/-- `pd.isna` on a float. -/
def isNA : RVal → Bool
  | none => true
  | some _ => false

/-- Python `a < b` on floats: any comparison with NaN is `False`. -/
def rvalLt : RVal → RVal → Bool
  | some a, some b => a < b
  | _, _ => false

/-- Python `a > b` on floats: any comparison with NaN is `False`. -/
def rvalGt : RVal → RVal → Bool
  | some a, some b => b < a
  | _, _ => false

/-- Python `a >= b` on floats: any comparison with NaN is `False`. -/
def rvalGe : RVal → RVal → Bool
  | some a, some b => b ≤ a
  | _, _ => false

/-- Python `a > c` for a float `a` and a non-NaN constant `c`. -/
def rvalGtQ (a : RVal) (c : ℚ) : Bool := rvalGt a (some c)

/-- Python `a < c` for a float `a` and a non-NaN constant `c`. -/
def rvalLtQ (a : RVal) (c : ℚ) : Bool := rvalLt a (some c)

/-- Python `a == 0` on a float; NaN compares unequal to everything. -/
def rvalEqZero : RVal → Bool
  | some a => a == 0
  | none => false

/-- Multiplication of a float by a non-NaN constant (NaN propagates). -/
def rvalMulQ (a : RVal) (c : ℚ) : RVal := a.map (fun q => q * c)

/-- Python `int(q)`: truncation toward zero. -/
def pyInt (q : ℚ) : ℤ := if q < 0 then -(⌊-q⌋) else ⌊q⌋

/-- `series.iloc[-(k+1)]` on a list of floats: `k = 0` is the last element;
an out-of-range access raises `IndexError`. -/
def ilocBack (l : List RVal) (k : ℕ) : Except PyError RVal :=
  match l.reverse.get? k with
  | some v => .ok v
  | none => .error .indexError

/-- `series.mean()` in pandas: NaN entries are skipped; the mean of an
all-NaN (or empty) series is NaN. -/
def pandasMean (l : List RVal) : RVal :=
  let nums := l.filterMap id
  if nums.isEmpty then none else some (nums.sum / nums.length)

/-! ### DataFrame model -/

/-- One row of a candle DataFrame.  `idx` is the (timestamp) index value;
the five cells are only meaningful when the corresponding column of the
owning `DataFrame` is present. -/
structure Row where
  idx : ℤ
  openC : Cell
  high : Cell
  low : Cell
  close : Cell
  volume : Cell
deriving DecidableEq, Repr

/-- A candle DataFrame: per-column presence flags plus the rows. -/
structure DataFrame where
  hasOpen : Bool
  hasHigh : Bool
  hasLow : Bool
  hasClose : Bool
  hasVolume : Bool
  rows : List Row
deriving DecidableEq, Repr

/-- Row order used by `df.sort_index()`: compare the index values. -/
def rowLE (a b : Row) : Prop := a.idx ≤ b.idx

instance : DecidableRel rowLE := fun a b => inferInstanceAs (Decidable (a.idx ≤ b.idx))

instance : IsTotal Row rowLE := ⟨fun a b => le_total a.idx b.idx⟩

instance : IsTrans Row rowLE := ⟨fun _ _ _ hab hbc => le_trans hab hbc⟩

/-- `df.sort_index()`: sort the rows by index.  Note that sorting does not
remove rows with duplicate index values. -/
def sortRows (rows : List Row) : List Row := List.insertionSort rowLE rows

/-- Apply `pd.to_numeric(·, errors="coerce")` to the cells of the columns
among `open, high, low, close, volume` that are present in `df`
(`strategy.py` lines 165–167). -/
def toNumericRow (df : DataFrame) (r : Row) : Row :=
  { r with
    openC := if df.hasOpen then toNumericCell r.openC else r.openC
    high := if df.hasHigh then toNumericCell r.high else r.high
    low := if df.hasLow then toNumericCell r.low else r.low
    close := if df.hasClose then toNumericCell r.close else r.close
    volume := if df.hasVolume then toNumericCell r.volume else r.volume }

/-- Row predicate of `df.dropna(subset=["high", "low", "close"])`: keep the
row when none of the three cells is NaN. -/
def keepRow (r : Row) : Bool := !(isNaCell r.high || isNaCell r.low || isNaCell r.close)

/-- `StrategyManager._prepare_dataframe` (`strategy.py` lines 157–171).
`pd.DataFrame.dropna` raises `KeyError` when a `subset` column is missing,
and nothing in `get_signal` catches it. -/
def prepareDataFrame (candles : Option DataFrame) : Except PyError (Option DataFrame) :=
  match candles with
  | none => .ok none
  | some df =>
    if df.rows.isEmpty then .ok none
    else
      let sorted := sortRows df.rows
      let coerced := sorted.map (toNumericRow df)
      -- dropna(subset=["high","low","close"]) raises KeyError on a missing column
      if !(df.hasHigh && df.hasLow && df.hasClose) then .error .keyError
      else
        let dropped := coerced.filter keepRow
        if dropped.isEmpty then .ok none
        else .ok (some { df with rows := dropped })

/-! ### Indicator library oracle (`pandas_ta`, external collaborator) -/

/-- Outcome of a `pandas_ta` call that returns a Series (`ta.sma`, `ta.rsi`,
`ta.atr`): the library can return `None`, raise, or return a series of
float values (leading positions are typically NaN). -/
inductive SeriesResult where
  | noResult
  | raised
  | series (vals : List RVal)
deriving DecidableEq, Repr

/-- Outcome of `ta.adx`: `None`, a raise, or a result DataFrame described by
whether it is empty, whether the `ADX_{period}` column is present, and the
value at `iloc[-1]` of that column (meaningful when the frame is nonempty
and the column present). -/
inductive AdxResult where
  | noResult
  | raised
  | frame (empty : Bool) (hasColumn : Bool) (lastAdx : RVal)
deriving DecidableEq, Repr

/-- Outcome of `ta.bbands`: `None`, a raise, or a result DataFrame described
by presence of the lower/upper band columns, emptiness, and the `iloc[-1]`
values of the two bands. -/
inductive BBResult where
  | noResult
  | raised
  | frame (hasLower hasUpper : Bool) (empty : Bool) (lastLower lastUpper : RVal)
deriving DecidableEq, Repr

/-- Evaluate a library Series call inside a `try` block: a raise propagates
to the enclosing handler, `None` and a series are ordinary values. -/
def SeriesResult.toExcept : SeriesResult → Except PyError (Option (List RVal))
  | .noResult => .ok none
  | .raised => .error .otherError
  | .series vals => .ok (some vals)

/-- The `pandas_ta` calls made by the core, as an oracle record.  `adx` and
`atr` receive the rows (they read `high`/`low`/`close`); `sma`, `bbands` and
`rsi` receive the `close` column (and `sma` its period). -/
structure Ta where
  adx : List Row → AdxResult
  sma : List Cell → ℕ → SeriesResult
  bbands : List Cell → BBResult
  rsi : List Cell → SeriesResult
  atr : List Row → SeriesResult

/-! ### StrategyManager (`src/strategy.py`) -/

/-- `StrategyManager.get_market_regime` (`strategy.py` lines 18–53).
The `try` block catches every raise (including one from the `ta.adx` call)
and degrades to `"UNKNOWN"`.  Note that a NaN `last_adx` is not caught by
any guard: `NaN > threshold` is `False` in Python, so the `else` branch
returns `"RANGE"`. -/
def get_market_regime (ta : Ta) (candles : Option DataFrame) : String :=
  match candles with
  | none => "UNKNOWN"
  | some df =>
    if df.rows.isEmpty then "UNKNOWN"
    else if df.rows.length < ADX_PERIOD + 1 then "UNKNOWN"
    else
      match ta.adx df.rows with
      | .noResult => "UNKNOWN"
      | .raised => "UNKNOWN"            -- caught by the except handler
      | .frame empty hasColumn lastAdx =>
        if empty then "UNKNOWN"
        else if !hasColumn then "UNKNOWN"
        else if rvalGtQ lastAdx ADX_TREND_THRESHOLD then "TREND"
        else "RANGE"

/-- The `close` column of a row list, as passed to `ta.sma`/`ta.bbands`/`ta.rsi`. -/
def closeCol (rows : List Row) : List Cell := rows.map Row.close

/-- `StrategyManager._ma_crossover_signal` (`strategy.py` lines 80–114).
The whole body is in a `try` whose handler returns
`("HOLD", "Ошибка расчета MA")`. -/
def maCrossoverSignal (ta : Ta) (rows : List Row) : String × String :=
  let body : Except PyError (String × String) :=
    if rows.length < MA_SLOW_PERIOD + 2 then .ok ("HOLD", "Недостаточно данных для MA")
    else
      match (ta.sma (closeCol rows) MA_FAST_PERIOD).toExcept with
      | .error e => .error e
      | .ok fastRes =>
        match (ta.sma (closeCol rows) MA_SLOW_PERIOD).toExcept with
        | .error e => .error e
        | .ok slowRes =>
          match fastRes, slowRes with
          | none, _ => .ok ("HOLD", "Не удалось рассчитать MA")
          | _, none => .ok ("HOLD", "Не удалось рассчитать MA")
          | some fastMa, some slowMa =>
            match ilocBack fastMa 0 with
            | .error e => .error e
            | .ok lastFast =>
              match ilocBack slowMa 0 with
              | .error e => .error e
              | .ok lastSlow =>
                match ilocBack fastMa 1 with
                | .error e => .error e
                | .ok prevFast =>
                  match ilocBack slowMa 1 with
                  | .error e => .error e
                  | .ok prevSlow =>
                    if isNA lastFast || isNA lastSlow ||
                        isNA prevFast || isNA prevSlow then
                      .ok ("HOLD", "MA содержат пропуски")
                    else if rvalLt prevFast prevSlow && rvalGt lastFast lastSlow then
                      .ok ("BUY",
                        s!"Пересечение MA ({MA_FAST_PERIOD}/{MA_SLOW_PERIOD}) вверх")
                    else if rvalGt prevFast prevSlow && rvalLt lastFast lastSlow then
                      .ok ("SELL",
                        s!"Пересечение MA ({MA_FAST_PERIOD}/{MA_SLOW_PERIOD}) вниз")
                    else .ok ("HOLD", "Нет пересечения MA")
  match body with
  | .ok r => r
  | .error _ => ("HOLD", "Ошибка расчета MA")

/-- `StrategyManager._bb_rsi_signal` (`strategy.py` lines 116–155).
The whole body is in a `try` whose handler returns
`("HOLD", "Ошибка расчета BB+RSI")`.  The Python reason strings interpolate
values with `:.2f` formatting; the numeric rendering is not load-bearing for
any claim, so the interpolation here uses the raw values. -/
def bbRsiSignal (ta : Ta) (rows : List Row) (lastPrice : ℚ) : String × String :=
  let body : Except PyError (String × String) :=
    if rows.length < BB_PERIOD + RSI_PERIOD then
      .ok ("HOLD", "Недостаточно данных для BB+RSI")
    else
      match ta.bbands (closeCol rows) with
      | .raised => .error .otherError
      | .noResult =>
        -- the rsi call on line 128 still runs before the None check
        match (ta.rsi (closeCol rows)).toExcept with
        | .error e => .error e
        | .ok _ => .ok ("HOLD", "Не удалось рассчитать BB или RSI")
      | .frame hasLower hasUpper empty lastLower lastUpper =>
        match (ta.rsi (closeCol rows)).toExcept with
        | .error e => .error e
        | .ok none => .ok ("HOLD", "Не удалось рассчитать BB или RSI")
        | .ok (some rsiSeries) =>
          if !hasLower || !hasUpper then
            .ok ("HOLD", "Ленты Боллинджера не содержат нужных колонок")
          -- bb_data.iloc[-1] raises IndexError on an empty frame (caught below)
          else if empty then .error .indexError
          else
            match ilocBack rsiSeries 0 with
            | .error e => .error e
            | .ok rsi =>
              if isNA lastLower || isNA lastUpper || isNA rsi then
                .ok ("HOLD", "BB или RSI содержат пропуски")
              else if rvalGtQ lastLower lastPrice && rvalLtQ rsi RSI_OVERSOLD then
                .ok ("BUY", s!"Цена ({lastPrice}) ниже BB и RSI < {RSI_OVERSOLD}")
              else if rvalLtQ lastUpper lastPrice && rvalGtQ rsi RSI_OVERBOUGHT then
                .ok ("SELL", s!"Цена ({lastPrice}) выше BB и RSI > {RSI_OVERBOUGHT}")
              else .ok ("HOLD", "Нет сигнала по BB+RSI")
  match body with
  | .ok r => r
  | .error _ => ("HOLD", "Ошибка расчета BB+RSI")

/-- The volume cells of the trailing `min(window, len)` rows, as floats
(`candles_df["volume"].tail(window)`; the function is applied to prepared
frames, whose volume cells are numeric or NaN). -/
def volumesRecent (df : DataFrame) : List RVal :=
  let window := min VOLUME_CONFIRMATION_WINDOW df.rows.length
  ((df.rows.map Row.volume).map cellVal).drop (df.rows.length - window)

/-- `StrategyManager._volume_confirmation` (`strategy.py` lines 173–194).
Not wrapped in a `try` by the caller; the only raise point (`iloc[-1]`) is
unreachable because the window has at least 3 entries. -/
def volumeConfirmation (df : DataFrame) : Except PyError (Bool × Option String) :=
  if !df.hasVolume || df.rows.all (fun r => isNaCell r.volume) then
    .ok (true, none)
  else
    let window := min VOLUME_CONFIRMATION_WINDOW df.rows.length
    if window < 3 then .ok (true, none)
    else
      let recentVolumes := volumesRecent df
      if rvalEqZero (pandasMean recentVolumes.dropLast) then .ok (true, none)
      else
        match ilocBack recentVolumes 0 with
        | .error e => .error e
        | .ok lastVolume =>
          let avgVolume := pandasMean recentVolumes.dropLast
          if rvalEqZero avgVolume then .ok (true, none)
          else
            let isConfirmed := rvalGe lastVolume (rvalMulQ avgVolume VOLUME_SPIKE_FACTOR)
            let req := rvalMulQ avgVolume VOLUME_SPIKE_FACTOR
            let reason := s!"объем {lastVolume} < требуемого {req}"
            .ok (isConfirmed, if isConfirmed then none else some reason)

/-- Render the `volume_reason` interpolated into the rejection message of
`get_signal`; Python renders `None` as the string `"None"`. -/
def optStr : Option String → String
  | some s => s
  | none => "None"

/-- Lines 73–78 of `strategy.py`: apply the volume filter to a BUY/SELL
decision, downgrading a rejected signal to HOLD. -/
def applyVolumeFilter (df : DataFrame) (sr : String × String) :
    Except PyError (String × String) :=
  if sr.1 = "BUY" || sr.1 = "SELL" then
    match volumeConfirmation df with
    | .error e => .error e
    | .ok (volumeConfirmed, volumeReason) =>
      if !volumeConfirmed then
        let vr := optStr volumeReason
        .ok ("HOLD", s!"Сигнал отклонен фильтром по объему ({vr})")
      else .ok sr
  else .ok sr

/-- `StrategyManager.get_signal` (`strategy.py` lines 55–78).  The calls to
`_prepare_dataframe` and `_volume_confirmation` are not inside any `try`, so
a raise from them propagates to the caller (modelled by the `Except`). -/
def get_signal (ta : Ta) (candles : Option DataFrame) (lastPrice : ℚ) :
    Except PyError (String × String) :=
  match prepareDataFrame candles with
  | .error e => .error e
  | .ok none => .ok ("HOLD", "Недостаточно данных для анализа")
  | .ok (some df) =>
    if df.rows.length < MIN_CANDLES_FOR_SIGNAL then
      .ok ("HOLD", "Недостаточно данных для анализа")
    else
      let regime := get_market_regime ta (some df)
      if regime = "TREND" then
        applyVolumeFilter df (maCrossoverSignal ta df.rows)
      else if regime = "RANGE" then
        applyVolumeFilter df (bbRsiSignal ta df.rows lastPrice)
      else
        .ok ("HOLD", "Режим рынка не определен")

/-! ### RiskManager (`src/risk_manager.py`) -/

/-- The mutable per-day trade counter of `RiskManager`
(`self.daily_trade_counts`), observed through `dict.get(figi, 0)`:
a missing key reads as 0, so the dictionary is modelled as a total
function with finite support. -/
structure RiskState where
  daily_trade_counts : String → ℕ

/-- `RiskManager.record_trade` (`risk_manager.py` lines 151–154):
`self.daily_trade_counts[figi] = self.daily_trade_counts.get(figi, 0) + 1`. -/
def record_trade (s : RiskState) (figi : String) : RiskState :=
  { daily_trade_counts := fun x =>
      if x = figi then s.daily_trade_counts figi + 1 else s.daily_trade_counts x }

/-- `RiskManager.reset_daily_counts` (`risk_manager.py` lines 19–22):
`self.daily_trade_counts = {}`; under the `get(·, 0)` reading, the empty
dictionary is the constant-zero map. -/
def reset_daily_counts (_s : RiskState) : RiskState :=
  { daily_trade_counts := fun _ => 0 }

/-- Instrument metadata returned by `tinkoff_client.get_instrument_info`. -/
structure InstrInfo where
  lot : ℕ
deriving DecidableEq, Repr

/-- `RiskManager._calculate_volatility_risk` (`risk_manager.py` lines 92–121):
the ATR-based per-share risk, or `None`.  The `ta.atr` call and everything
after it are inside a `try` whose handler returns `None`. -/
def calcVolatilityRisk (ta : Ta) (candles : Option DataFrame) : Option ℚ :=
  match candles with
  | none => none
  | some df =>
    if df.rows.isEmpty then none
    else if !(df.hasHigh && df.hasLow && df.hasClose) then none
    else if df.rows.length < ATR_PERIOD then none
    else
      match ta.atr df.rows with
      | .noResult => none
      | .raised => none                     -- caught by the except handler
      | .series vals =>
        if vals.isEmpty then none
        else
          match vals.getLast? with          -- atr_series.iloc[-1]
          | none => none
          | some none => none               -- pd.isna(atr_value)
          | some (some v) =>
            if v ≤ 0 then none
            else some (v * ATR_STOP_MULTIPLIER)

/-- The `try` block of `calculate_position_size` (`risk_manager.py` lines
34–86), as an `Except` computation: `.error` is a raise reaching the
function's `except` handler.  A raise from either collaborator fetch is
propagated from the supplied `Except` argument.  The local variable
`risk_amount` is never assigned anywhere in the function body, so its first
read on line 40 raises `UnboundLocalError`; the code that follows (kept
here, matching on the value of that failed read) is unreachable when the
balance is positive. -/
def positionSizeAttempt (ta : Ta) (balanceRes : Except PyError ℚ)
    (infoRes : Except PyError (Option InstrInfo))
    (lastPrice : ℚ) (candles : Option DataFrame) : Except PyError ℤ :=
  match balanceRes with
  | .error e => .error e
  | .ok accountBalance =>
    if accountBalance ≤ 0 then .ok 0
    else
      -- line 40: `risk_amount` is read here but was never assigned;
      -- Python raises UnboundLocalError at this point.
      match (Except.error PyError.unboundLocalError : Except PyError ℚ) with
      | .error e => .error e
      | .ok riskAmount =>
        if riskAmount ≤ 0 then .ok 0
        else
          match infoRes with
          | .error e => .error e
          | .ok none => .ok 0
          | .ok (some info) =>
            let lotSize : ℚ := info.lot
            let lotCost := lastPrice * lotSize
            if lotCost = 0 then .ok 0
            else
              let basePerShareRisk :=
                lastPrice * max STOP_LOSS_PERCENT MIN_STOP_LOSS_PERCENT
              let perShareRisk :=
                match calcVolatilityRisk ta candles with
                | none => basePerShareRisk
                | some atrRisk => max basePerShareRisk atrRisk
              if perShareRisk ≤ 0 then .ok 0
              else
                let positionSizeByRisk := pyInt (riskAmount / (perShareRisk * lotSize))
                if positionSizeByRisk ≤ 0 then .ok 0
                else
                  let maxPositionValue :=
                    accountBalance * MAX_POSITION_SHARE_PER_INSTRUMENT
                  if maxPositionValue ≤ 0 then .ok 0
                  else
                    let positionSizeByCapital := pyInt (maxPositionValue / lotCost)
                    let positionSizeInLots :=
                      min positionSizeByRisk positionSizeByCapital
                    if positionSizeInLots = 0 then .ok 0
                    else .ok positionSizeInLots

/-- `RiskManager.calculate_position_size` (`risk_manager.py` lines 24–90):
the daily-limit check, then the `try` body (`positionSizeAttempt`), with the
catch-all `except` handler converting any raise into a 0-lot result.
Returns the lot count together with the (unchanged) counter state. -/
def calculate_position_size (ta : Ta) (s : RiskState) (figi : String)
    (balanceRes : Except PyError ℚ) (infoRes : Except PyError (Option InstrInfo))
    (lastPrice : ℚ) (candles : Option DataFrame) : ℤ × RiskState :=
  if s.daily_trade_counts figi ≥ MAX_TRADES_PER_INSTRUMENT_PER_DAY then
    (0, s)
  else
    match positionSizeAttempt ta balanceRes infoRes lastPrice candles with
    | .ok n => (n, s)
    | .error _ => (0, s)

/-- `RiskManager.calculate_sl_tp` (`risk_manager.py` lines 123–149).
Returns `(None, None)` for an unrecognized direction, hence the `Option`
components; the counter state is returned unchanged. -/
def calculate_sl_tp (ta : Ta) (s : RiskState) (entryPrice : ℚ) (direction : String)
    (candles : Option DataFrame) : (Option ℚ × Option ℚ) × RiskState :=
  let baseStopDistance₀ := entryPrice * max STOP_LOSS_PERCENT MIN_STOP_LOSS_PERCENT
  let baseStopDistance :=
    match calcVolatilityRisk ta candles with
    | none => baseStopDistance₀
    | some atrRisk => max baseStopDistance₀ atrRisk
  let takeProfitDistance := baseStopDistance * TAKE_PROFIT_RATIO
  if direction = "BUY" then
    ((some (max (entryPrice - baseStopDistance) 0),
      some (max (entryPrice + takeProfitDistance) 0)), s)
  else if direction = "SELL" then
    ((some (max (entryPrice + baseStopDistance) 0),
      some (max (entryPrice - takeProfitDistance) 0)), s)
  else
    ((none, none), s)

/-- Modelled from the spec (§4.6 steps 3–8): the position size the
specification intends `calculate_position_size` to produce — the code never
assigns `risk_amount`, so the computation below is what the spec describes,
not what the code performs.  `perShareRisk` is the per-share risk after the
ATR widening of step 4. -/
def position_size_spec (balance lastPrice : ℚ) (lot : ℕ) (perShareRisk : ℚ) : ℤ :=
  let positionByRisk := pyInt ((balance * RISK_PER_TRADE) / (perShareRisk * lot))
  let positionByCapital :=
    pyInt ((balance * MAX_POSITION_SHARE_PER_INSTRUMENT) / (lastPrice * lot))
  min positionByRisk positionByCapital

/-! ### Concrete fixtures used by witnesses and counterexamples -/

/-- A trivial indicator oracle used in concrete evaluations: every library
call returns `None`. -/
def taNone : Ta :=
  { adx := fun _ => .noResult, sma := fun _ _ => .noResult,
    bbands := fun _ => .noResult, rsi := fun _ => .noResult,
    atr := fun _ => .noResult }

/-- A fresh risk state: no trades recorded. -/
def rsZero : RiskState := ⟨fun _ => 0⟩

/-- A concrete three-bar frame with volumes 10, 10, 12, used by the volume
filter witness. -/
def dfVolW : DataFrame :=
  ⟨true, true, true, true, true,
    [⟨0, .num 1, .num 1, .num 1, .num 1, .num 10⟩,
     ⟨1, .num 1, .num 1, .num 1, .num 1, .num 10⟩,
     ⟨2, .num 1, .num 1, .num 1, .num 1, .num 12⟩]⟩

/-- Oracle for the C3 counterexample: `ta.adx` returns a nonempty frame with
the ADX column present whose latest value is NaN — exactly what `pandas_ta`
produces when the series is long enough to pass the bar-count guard but too
short for the ADX smoothing to have converged. -/
def taAdxNaN : Ta := { taNone with adx := fun _ => .frame false true none }

/-- A 15-bar frame (ADX_PERIOD + 1 rows) with all columns numeric. -/
def dfRegime15 : DataFrame :=
  ⟨true, true, true, true, true,
    (List.range 15).map (fun i => ⟨i, .num 1, .num 1, .num 1, .num 1, .num 1⟩)⟩

/-- Oracle for the C3 witness: the latest ADX value is the number 30. -/
def taAdx30 : Ta := { taNone with adx := fun _ => .frame false true (some 30) }

/-- Oracle for the C2 counterexample: the fast SMA ends `[1, 2]` and the
slow SMA ends `[1, 1]` — equal on the prior bar, fast strictly above on the
latest bar. -/
def taMaCex : Ta :=
  { taNone with
    sma := fun _ n =>
      if n = MA_FAST_PERIOD then .series [some 1, some 2]
      else .series [some 1, some 1] }

/-- A 23-bar row list (MA_SLOW_PERIOD + 2 rows) with numeric cells. -/
def maCexRows : List Row :=
  (List.range 23).map (fun i => ⟨i, .num 1, .num 1, .num 1, .num 1, .num 1⟩)

/-- Oracle for the C2 witness: the fast SMA series is `[1, 3]` and the
slow SMA series is `[2, 2]` — a strict upward cross. -/
def taMaW : Ta :=
  { taNone with
    sma := fun _ n =>
      if n = MA_FAST_PERIOD then .series [some 1, some 3]
      else .series [some 2, some 2] }

/-- A two-row frame whose rows share the index value 5. -/
def dfDupC8 : DataFrame :=
  ⟨true, true, true, true, true,
    [⟨5, .num 1, .num 1, .num 1, .num 1, .num 1⟩,
     ⟨5, .num 2, .num 2, .num 2, .num 2, .num 2⟩]⟩

/-- A two-row frame with out-of-order indices 2, 1, used by the C8 witness. -/
def dfSortW : DataFrame :=
  ⟨true, true, true, true, true,
    [⟨2, .num 1, .num 1, .num 1, .num 1, .num 1⟩,
     ⟨1, .num 2, .num 2, .num 2, .num 2, .num 2⟩]⟩

/-- A one-row frame with all columns present and numeric. -/
def dfShortW : DataFrame :=
  ⟨true, true, true, true, true, [⟨0, .num 1, .num 1, .num 1, .num 1, .num 1⟩]⟩

/-- A one-row frame without a high column. -/
def dfNoHighC4 : DataFrame :=
  ⟨true, false, true, true, true, [⟨0, .num 1, .nan, .num 1, .num 1, .num 1⟩]⟩

/-! ### Shared helper lemmas -/

/-- When `_calculate_volatility_risk` returns a value, that value is
strictly positive: the code returns `None` unless the last ATR value is a
positive number, and multiplies it by the positive `ATR_STOP_MULTIPLIER`. -/
theorem calcVolatilityRisk_pos (ta : Ta) (candles : Option DataFrame) (a : ℚ)
    (h : calcVolatilityRisk ta candles = some a) : 0 < a := by
  unfold calcVolatilityRisk at h
  repeat' split at h
  any_goals exact Option.noConfusion h
  rw [← Option.some.inj h]
  exact mul_pos (lt_of_not_le (by assumption))
    (by norm_num [ATR_STOP_MULTIPLIER])

/-! ### Claim theorems -/

/-- C10: whenever the daily counter of the instrument is below the limit and
the fetched account balance is strictly positive, `calculate_position_size`
returns 0 regardless of balance, last price, lot size, or supplied bars: the
read of the never-assigned local `risk_amount` raises `UnboundLocalError`,
which the catch-all handler converts to 0. -/
theorem position_size_always_zero (ta : Ta) (s : RiskState) (figi : String)
    (b : ℚ) (infoRes : Except PyError (Option InstrInfo))
    (lastPrice : ℚ) (candles : Option DataFrame)
    (hcount : s.daily_trade_counts figi < MAX_TRADES_PER_INSTRUMENT_PER_DAY)
    (hb : 0 < b) :
    (calculate_position_size ta s figi (.ok b) infoRes lastPrice candles).1 = 0 := by
  have hattempt : positionSizeAttempt ta (.ok b) infoRes lastPrice candles =
      if b ≤ 0 then .ok 0 else .error PyError.unboundLocalError := rfl
  unfold calculate_position_size
  rw [if_neg (not_le.mpr hcount), hattempt, if_neg (not_le.mpr hb)]

/-- C10 witness: a concrete instance of `position_size_always_zero`. -/
theorem position_size_always_zero_witness :
    rsZero.daily_trade_counts "FIGI1" < MAX_TRADES_PER_INSTRUMENT_PER_DAY ∧
    (0:ℚ) < 100000 ∧
    (calculate_position_size taNone rsZero "FIGI1" (.ok 100000)
      (.ok (some ⟨1⟩)) 100 none).1 = 0 :=
  ⟨by decide, by norm_num,
    position_size_always_zero taNone rsZero "FIGI1" 100000 (.ok (some ⟨1⟩)) 100 none
      (by decide) (by norm_num)⟩

/-- C1: the code does not compute the specified
`min(position_by_risk, position_by_capital)`.  At the concrete input
balance = 100000, last price = 100, lot size = 1, no candles, counter 0,
the specified size (spec §4.6 steps 3–8) is 200 lots, but the code returns
0: the assignment `risk_amount = balance × risk_per_trade_fraction` of spec
step 3 is missing from the code, so line 40 reads an unassigned local and
the catch-all handler returns 0. -/
theorem position_size_code_vs_spec :
    (calculate_position_size taNone rsZero "FIGI1" (.ok 100000)
      (.ok (some ⟨1⟩)) 100 none).1 = 0 ∧
    position_size_spec 100000 100 1
      ((100:ℚ) * max STOP_LOSS_PERCENT MIN_STOP_LOSS_PERCENT) = 200 ∧
    (200 : ℤ) ≠ 0 := by
  refine ⟨rfl, ?_, by decide⟩
  norm_num [position_size_spec, pyInt, RISK_PER_TRADE,
    MAX_POSITION_SHARE_PER_INSTRUMENT, STOP_LOSS_PERCENT, MIN_STOP_LOSS_PERCENT]

/-- C5: for every positive entry price and every bar-series argument,
`calculate_sl_tp` brackets the entry price: with direction BUY,
stop < entry < target; with direction SELL, target < entry < stop; and all
four returned prices are nonnegative, even when the stop distance exceeds
the entry price. -/
theorem calculate_sl_tp_brackets (ta : Ta) (s : RiskState) (entryPrice : ℚ)
    (candles : Option DataFrame) (hentry : 0 < entryPrice) :
    ∃ slB tpB slS tpS : ℚ,
      (calculate_sl_tp ta s entryPrice "BUY" candles).1 = (some slB, some tpB) ∧
      0 ≤ slB ∧ slB < entryPrice ∧ entryPrice < tpB ∧ 0 ≤ tpB ∧
      (calculate_sl_tp ta s entryPrice "SELL" candles).1 = (some slS, some tpS) ∧
      0 ≤ tpS ∧ tpS < entryPrice ∧ entryPrice < slS ∧ 0 ≤ slS := by
  have hmax : (0:ℚ) < max STOP_LOSS_PERCENT MIN_STOP_LOSS_PERCENT := by
    norm_num [STOP_LOSS_PERCENT, MIN_STOP_LOSS_PERCENT]
  have hd0 : 0 < entryPrice * max STOP_LOSS_PERCENT MIN_STOP_LOSS_PERCENT :=
    mul_pos hentry hmax
  obtain ⟨d, hd_eq, hd_pos⟩ :
      ∃ d, (match calcVolatilityRisk ta candles with
        | none => entryPrice * max STOP_LOSS_PERCENT MIN_STOP_LOSS_PERCENT
        | some atrRisk =>
          max (entryPrice * max STOP_LOSS_PERCENT MIN_STOP_LOSS_PERCENT) atrRisk) = d
        ∧ 0 < d := by
    rcases hV : calcVolatilityRisk ta candles with _ | a
    · exact ⟨_, rfl, hd0⟩
    · exact ⟨_, rfl, lt_max_of_lt_left hd0⟩
  have hratio : (0:ℚ) < TAKE_PROFIT_RATIO := by norm_num [ TAKE_PROFIT_RATIO]
  have hBUY : (calculate_sl_tp ta s entryPrice "BUY" candles).1 =
      (some (max (entryPrice - d) 0), some (max (entryPrice + d * TAKE_PROFIT_RATIO) 0)) := by
    simp only [calculate_sl_tp, hd_eq, if_true]
  have hSELL : (calculate_sl_tp ta s entryPrice "SELL" candles).1 =
      (some (max (entryPrice + d) 0), some (max (entryPrice - d * TAKE_PROFIT_RATIO) 0)) := by
    simp only [calculate_sl_tp, hd_eq, if_true]
    rw [if_neg (by decide : ¬("SELL" : String) = "BUY")]
  refine ⟨max (entryPrice - d) 0, max (entryPrice + d * TAKE_PROFIT_RATIO) 0,
    max (entryPrice + d) 0, max (entryPrice - d * TAKE_PROFIT_RATIO) 0,
    hBUY, le_max_right _ _, max_lt (by linarith) hentry,
    lt_of_lt_of_le (by nlinarith) (le_max_left _ _), le_max_right _ _,
    hSELL, le_max_right _ _, max_lt (by nlinarith) hentry,
    lt_of_lt_of_le (by linarith) (le_max_left _ _), le_max_right _ _⟩

/-- C5 witness: `calculate_sl_tp_brackets` at entry price 100 with no
candles: BUY gives (99.5, 101), SELL gives (100.5, 99). -/
theorem calculate_sl_tp_brackets_witness :
    (0:ℚ) < 100 ∧
    (∃ slB tpB slS tpS : ℚ,
      (calculate_sl_tp taNone rsZero 100 "BUY" none).1 = (some slB, some tpB) ∧
      0 ≤ slB ∧ slB < 100 ∧ (100:ℚ) < tpB ∧ 0 ≤ tpB ∧
      (calculate_sl_tp taNone rsZero 100 "SELL" none).1 = (some slS, some tpS) ∧
      0 ≤ tpS ∧ tpS < 100 ∧ (100:ℚ) < slS ∧ 0 ≤ slS) :=
  ⟨by norm_num, calculate_sl_tp_brackets taNone rsZero 100 none (by norm_num)⟩

/-- C7: `record_trade X` increments X's daily count by exactly 1 and leaves
every other instrument's count unchanged; `reset_daily_counts` makes the
whole mapping read as empty (0 everywhere); and neither
`calculate_position_size` nor `calculate_sl_tp` modifies the counter state. -/
theorem daily_counter_frame (ta : Ta) (s : RiskState) (x y : String)
    (hxy : y ≠ x) (figi : String) (balanceRes : Except PyError ℚ)
    (infoRes : Except PyError (Option InstrInfo)) (lastPrice : ℚ)
    (candles : Option DataFrame) (entryPrice : ℚ) (direction : String) :
    (record_trade s x).daily_trade_counts x = s.daily_trade_counts x + 1 ∧
    (record_trade s x).daily_trade_counts y = s.daily_trade_counts y ∧
    (∀ z, (reset_daily_counts s).daily_trade_counts z = 0) ∧
    (calculate_position_size ta s figi balanceRes infoRes lastPrice candles).2 = s ∧
    (calculate_sl_tp ta s entryPrice direction candles).2 = s := by
  refine ⟨by simp [record_trade], by simp [record_trade, hxy],
    fun z => rfl, ?_, ?_⟩
  · unfold calculate_position_size
    split
    · rfl
    · split <;> rfl
  · simp only [calculate_sl_tp]
    repeat' split
    all_goals rfl

/-- C7 witness: `daily_counter_frame` at a concrete state and concrete
distinct instrument identifiers. -/
theorem daily_counter_frame_witness :
    "BBB" ≠ "AAA" ∧
    ((record_trade rsZero "AAA").daily_trade_counts "AAA" =
        rsZero.daily_trade_counts "AAA" + 1 ∧
      (record_trade rsZero "AAA").daily_trade_counts "BBB" =
        rsZero.daily_trade_counts "BBB" ∧
      (∀ z, (reset_daily_counts rsZero).daily_trade_counts z = 0) ∧
      (calculate_position_size taNone rsZero "AAA" (.ok 100000)
        (.ok (some ⟨1⟩)) 100 none).2 = rsZero ∧
      (calculate_sl_tp taNone rsZero 100 "BUY" none).2 = rsZero) :=
  ⟨by decide,
    daily_counter_frame taNone rsZero "AAA" "BBB" (by decide) "AAA" (.ok 100000)
      (.ok (some ⟨1⟩)) 100 none 100 "BUY"⟩

/-- C6: when a usable volume column exists (present and not all-NaN), the
trailing window has at least 3 bars, the baseline mean of all but the most
recent bar is a positive number `b`, and the most recent bar's volume is a
number `v`, the filter confirms exactly when `v ≥ b × VOLUME_SPIKE_FACTOR`:
the boundary value confirms, anything below rejects. -/
theorem volume_confirmation_iff (df : DataFrame) (b v : ℚ)
    (hvol : df.hasVolume = true)
    (hna : df.rows.all (fun r => isNaCell r.volume) = false)
    (hw : 3 ≤ min VOLUME_CONFIRMATION_WINDOW df.rows.length)
    (hb : pandasMean (volumesRecent df).dropLast = some b)
    (hbpos : 0 < b)
    (hl : ilocBack (volumesRecent df) 0 = .ok (some v)) :
    (volumeConfirmation df).map Prod.fst = .ok (decide (b * VOLUME_SPIKE_FACTOR ≤ v)) := by
  have hwin : ¬ (min VOLUME_CONFIRMATION_WINDOW df.rows.length < 3) := not_lt.mpr hw
  have hb0 : rvalEqZero (some b) = false := by
    simp [rvalEqZero]
    exact ne_of_gt hbpos
  simp only [volumeConfirmation, hvol, hna, Bool.not_true, Bool.or_false, if_false,
    hwin, if_neg, hb, hb0, hl, rvalMulQ, Option.map_some, rvalGe, ite_false]
  rfl

/-- C6 witness: a three-bar frame with volumes 10, 10, 12: the baseline is
10, the required volume is 10 × 1.2 = 12, and the last bar's volume of
exactly 12 confirms (inclusive boundary). -/
theorem volume_confirmation_iff_witness :
    (dfVolW.hasVolume = true ∧
      dfVolW.rows.all (fun r => isNaCell r.volume) = false ∧
      3 ≤ min VOLUME_CONFIRMATION_WINDOW dfVolW.rows.length ∧
      pandasMean (volumesRecent dfVolW).dropLast = some 10 ∧
      (0:ℚ) < 10 ∧
      ilocBack (volumesRecent dfVolW) 0 = .ok (some 12)) ∧
    (volumeConfirmation dfVolW).map Prod.fst =
      .ok (decide ((10:ℚ) * VOLUME_SPIKE_FACTOR ≤ 12)) ∧
    ((10:ℚ) * VOLUME_SPIKE_FACTOR ≤ 12) :=
  ⟨⟨rfl, rfl, by decide,
      by norm_num [pandasMean, volumesRecent, dfVolW, cellVal,
        VOLUME_CONFIRMATION_WINDOW, List.filterMap_cons],
      by norm_num, rfl⟩,
    volume_confirmation_iff dfVolW 10 12 rfl rfl (by decide)
      (by norm_num [pandasMean, volumesRecent, dfVolW, cellVal,
        VOLUME_CONFIRMATION_WINDOW, List.filterMap_cons])
      (by norm_num) rfl,
    by norm_num [VOLUME_SPIKE_FACTOR]⟩

/-- C3 counterexample: on a series of exactly `ADX_PERIOD + 1` bars whose
latest ADX value is NaN, the classifier returns "RANGE", not "UNKNOWN" as
the claim states: in Python `NaN > threshold` is `False`, so the `else`
branch fires. -/
theorem regime_nan_counterexample :
    dfRegime15.rows.length = ADX_PERIOD + 1 ∧
    taAdxNaN.adx dfRegime15.rows = .frame false true none ∧
    get_market_regime taAdxNaN (some dfRegime15) = "RANGE" ∧
    "RANGE" ≠ "UNKNOWN" :=
  ⟨by decide, rfl, rfl, by decide⟩

/-- C3 (amended): the classifier returns UNKNOWN when the series has fewer
than `ADX_PERIOD + 1` bars, or the ADX call returns no result, an empty
frame, or a frame without the ADX column; when the column is present in a
nonempty frame, a numeric latest value yields TREND exactly when it is
strictly greater than the threshold and RANGE otherwise, while a NaN latest
value yields RANGE (not UNKNOWN). -/
theorem get_market_regime_spec (ta : Ta) (df : DataFrame) :
    (df.rows.length < ADX_PERIOD + 1 →
      get_market_regime ta (some df) = "UNKNOWN") ∧
    (ADX_PERIOD + 1 ≤ df.rows.length →
      (ta.adx df.rows = .noResult → get_market_regime ta (some df) = "UNKNOWN") ∧
      (∀ hc last, ta.adx df.rows = .frame true hc last →
        get_market_regime ta (some df) = "UNKNOWN") ∧
      (∀ last, ta.adx df.rows = .frame false false last →
        get_market_regime ta (some df) = "UNKNOWN") ∧
      (∀ v, ta.adx df.rows = .frame false true (some v) →
        get_market_regime ta (some df) =
          (if ADX_TREND_THRESHOLD < v then "TREND" else "RANGE")) ∧
      (ta.adx df.rows = .frame false true none →
        get_market_regime ta (some df) = "RANGE")) := by
  constructor
  · intro hlt
    by_cases he : df.rows.isEmpty
    · simp [get_market_regime, he]
    · simp [get_market_regime, he, hlt]
  · intro hlen
    have he : df.rows.isEmpty = false := by
      rcases hrows : df.rows with _ | ⟨r, rs⟩
      · rw [hrows] at hlen
        simp [ADX_PERIOD] at hlen
      · rfl
    have hlt : ¬ df.rows.length < ADX_PERIOD + 1 := not_lt.mpr hlen
    refine ⟨fun hadx => ?_, fun hc last hadx => ?_, fun last hadx => ?_,
      fun v hadx => ?_, fun hadx => ?_⟩
    · simp [get_market_regime, he, hlt, hadx]
    · simp [get_market_regime, he, hlt, hadx]
    · simp [get_market_regime, he, hlt, hadx]
    · simp only [get_market_regime, he, hlt, hadx, Bool.false_eq_true, if_false,
        Bool.not_false, if_true, rvalGtQ, rvalGt]
      by_cases hv : ADX_TREND_THRESHOLD < v
      · simp [hv]
      · simp [hv]
    · simp [get_market_regime, he, hlt, hadx, rvalGtQ, rvalGt]

/-- C3 witness: `get_market_regime_spec` applied with a numeric latest ADX
value of 30 on a 15-bar frame: 30 > 25 yields TREND. -/
theorem get_market_regime_spec_witness :
    ADX_PERIOD + 1 ≤ dfRegime15.rows.length ∧
    get_market_regime taAdx30 (some dfRegime15) =
      (if ADX_TREND_THRESHOLD < 30 then "TREND" else "RANGE") :=
  ⟨by decide,
    ((get_market_regime_spec taAdx30 dfRegime15).2 (by decide)).2.2.2.1 30 rfl⟩

/-- C2 counterexample: with the fast SMA equal to the slow SMA on the prior
bar (1 = 1, so "below or equal" holds) and strictly above on the latest bar
(2 > 1), the claim says BUY fires, but the code requires strict inequality
on the prior bar (`prev_fast < prev_slow`) and returns HOLD. -/
theorem ma_crossover_counterexample :
    maCexRows.length = MA_SLOW_PERIOD + 2 ∧
    taMaCex.sma (closeCol maCexRows) MA_FAST_PERIOD = .series [some 1, some 2] ∧
    taMaCex.sma (closeCol maCexRows) MA_SLOW_PERIOD = .series [some 1, some 1] ∧
    ((1:ℚ) ≤ 1 ∧ (1:ℚ) < 2) ∧
    maCrossoverSignal taMaCex maCexRows = ("HOLD", "Нет пересечения MA") ∧
    ("HOLD" : String) ≠ "BUY" :=
  ⟨by decide, rfl, rfl, by norm_num, by decide, by decide⟩

/-- C2 (amended): on a series of at least `MA_SLOW_PERIOD + 2` bars with
numeric last and prior SMA values, BUY is returned exactly when the fast
SMA was STRICTLY below the slow SMA on the prior bar and strictly above on
the latest bar; SELL exactly on the mirrored strict downward cross; HOLD
otherwise (in particular when the two averages were equal on the prior
bar). -/
theorem ma_crossover_strict (ta : Ta) (rows : List Row)
    (fvals svals : List RVal) (lf pf ls ps : ℚ)
    (hlen : MA_SLOW_PERIOD + 2 ≤ rows.length)
    (hf : ta.sma (closeCol rows) MA_FAST_PERIOD = .series fvals)
    (hs : ta.sma (closeCol rows) MA_SLOW_PERIOD = .series svals)
    (hlf : ilocBack fvals 0 = .ok (some lf))
    (hls : ilocBack svals 0 = .ok (some ls))
    (hpf : ilocBack fvals 1 = .ok (some pf))
    (hps : ilocBack svals 1 = .ok (some ps)) :
    maCrossoverSignal ta rows =
      (if pf < ps ∧ ls < lf then
        ("BUY", s!"Пересечение MA ({MA_FAST_PERIOD}/{MA_SLOW_PERIOD}) вверх")
      else if ps < pf ∧ lf < ls then
        ("SELL", s!"Пересечение MA ({MA_FAST_PERIOD}/{MA_SLOW_PERIOD}) вниз")
      else ("HOLD", "Нет пересечения MA")) := by
  have hlt : ¬ rows.length < MA_SLOW_PERIOD + 2 := not_lt.mpr hlen
  simp only [maCrossoverSignal, hlt, if_false, hf, hs, SeriesResult.toExcept,
    hlf, hls, hpf, hps, isNA, Bool.or_false, rvalLt, rvalGt,
    Bool.and_eq_true, decide_eq_true_eq]
  by_cases h1 : pf < ps ∧ ls < lf
  · simp [h1]
  · by_cases h2 : ps < pf ∧ lf < ls
    · simp [h1, h2]
    · simp [h1, h2]

/-- C2 witness: `ma_crossover_strict` applied to a strict upward cross
(prior 1 < 2, latest 3 > 2) on a 23-bar series: the result is BUY. -/
theorem ma_crossover_strict_witness :
    MA_SLOW_PERIOD + 2 ≤ maCexRows.length ∧
    maCrossoverSignal taMaW maCexRows =
      (if (1:ℚ) < 2 ∧ (2:ℚ) < 3 then
        ("BUY", s!"Пересечение MA ({MA_FAST_PERIOD}/{MA_SLOW_PERIOD}) вверх")
      else if (2:ℚ) < 1 ∧ (3:ℚ) < 2 then
        ("SELL", s!"Пересечение MA ({MA_FAST_PERIOD}/{MA_SLOW_PERIOD}) вниз")
      else ("HOLD", "Нет пересечения MA")) :=
  ⟨by decide,
    ma_crossover_strict taMaW maCexRows [some 1, some 3] [some 2, some 2]
      3 1 2 2 (by decide) rfl rfl rfl rfl rfl rfl⟩

/-- C8 counterexample: `_prepare_dataframe` only calls `sort_index()`; it
never deduplicates, so a frame with two bars at the same timestamp is
prepared into a frame that still has both bars — timestamps `[5, 5]`,
which is not duplicate-free. -/
theorem prepare_duplicates_counterexample :
    (prepareDataFrame (some dfDupC8)).map (Option.map fun d => d.rows.map Row.idx) =
      .ok (some [5, 5]) ∧
    ¬ ([5, 5] : List ℤ).Nodup :=
  ⟨rfl, by decide⟩

/-- When preparation succeeds with a frame, its rows are exactly the sorted,
numeric-coerced input rows filtered by the dropna predicate. -/
theorem prepare_rows_eq (df d' : DataFrame)
    (h : prepareDataFrame (some df) = .ok (some d')) :
    d'.rows = ((sortRows df.rows).map (toNumericRow df)).filter keepRow := by
  simp only [prepareDataFrame] at h
  split at h
  · exact absurd h (by simp)
  · split at h
    · exact absurd h (by simp)
    · split at h
      · exact absurd h (by simp)
      · simp only [Except.ok.injEq, Option.some.injEq] at h
        rw [← h]

/-- C8 (amended): for every input frame, the prepared frame is sorted
chronologically by timestamp (non-strictly: bars with duplicate timestamps
are all retained, in particular the output need not be duplicate-free). -/
theorem prepare_sorted (df d' : DataFrame)
    (h : prepareDataFrame (some df) = .ok (some d')) :
    List.Sorted (fun a b => a ≤ b) (d'.rows.map Row.idx) := by
  rw [prepare_rows_eq df d' h]
  have h1 : List.Sorted rowLE (sortRows df.rows) :=
    List.sorted_insertionSort rowLE df.rows
  have h2 : List.Sorted rowLE ((sortRows df.rows).map (toNumericRow df)) := by
    rw [List.Sorted, List.pairwise_map]
    exact h1.imp (fun hab => hab)
  have h3 : List.Sorted rowLE
      (((sortRows df.rows).map (toNumericRow df)).filter keepRow) :=
    List.Pairwise.sublist (List.filter_sublist _) h2
  rw [List.Sorted, List.pairwise_map]
  exact h3.imp (fun hab => hab)

/-- C8 witness: `prepare_sorted` applied to a frame with indices `[2, 1]`;
preparation reorders the rows to indices `[1, 2]`, which are sorted. -/
theorem prepare_sorted_witness :
    List.Sorted (fun a b => a ≤ b)
      ((⟨true, true, true, true, true,
        [⟨1, .num 2, .num 2, .num 2, .num 2, .num 2⟩,
         ⟨2, .num 1, .num 1, .num 1, .num 1, .num 1⟩]⟩ : DataFrame).rows.map Row.idx) :=
  prepare_sorted dfSortW _ rfl

/-- When the high, low, and close columns are all present, preparation
cannot raise. -/
theorem prepare_no_error (df : DataFrame)
    (hH : df.hasHigh = true) (hL : df.hasLow = true) (hC : df.hasClose = true)
    (e : PyError) : prepareDataFrame (some df) ≠ .error e := by
  intro h
  simp only [prepareDataFrame] at h
  split at h
  · exact absurd h (by simp)
  · split at h
    · rename_i hcols
      rw [hH, hL, hC] at hcols
      exact absurd hcols (by simp)
    · split at h
      · exact absurd h (by simp)
      · exact absurd h (by simp)

/-- Preparation never increases the number of rows: sorting preserves the
length and the dropna filter only removes rows. -/
theorem prepare_length_le (df d' : DataFrame)
    (h : prepareDataFrame (some df) = .ok (some d')) :
    d'.rows.length ≤ df.rows.length := by
  rw [prepare_rows_eq df d' h]
  calc (((sortRows df.rows).map (toNumericRow df)).filter keepRow).length
      ≤ ((sortRows df.rows).map (toNumericRow df)).length :=
        List.length_filter_le _ _
    _ = (sortRows df.rows).length := List.length_map _ _
    _ = df.rows.length := List.length_insertionSort _ _

/-- C9: when the high/low/close columns are present and either the raw
series or its prepared form has fewer rows than `MIN_CANDLES_FOR_SIGNAL`,
`get_signal` returns HOLD with the insufficient-data reason, without
dispatching to any strategy. -/
theorem get_signal_insufficient (ta : Ta) (df : DataFrame) (lastPrice : ℚ)
    (hH : df.hasHigh = true) (hL : df.hasLow = true) (hC : df.hasClose = true)
    (hshort : df.rows.length < MIN_CANDLES_FOR_SIGNAL ∨
      ∀ d', prepareDataFrame (some df) = .ok (some d') →
        d'.rows.length < MIN_CANDLES_FOR_SIGNAL) :
    get_signal ta (some df) lastPrice =
      .ok ("HOLD", "Недостаточно данных для анализа") := by
  have hshort' : ∀ d', prepareDataFrame (some df) = .ok (some d') →
      d'.rows.length < MIN_CANDLES_FOR_SIGNAL := by
    rcases hshort with h | h
    · intro d' hd'
      have hle := prepare_length_le df d' hd'
      omega
    · exact h
  unfold get_signal
  rcases hp : prepareDataFrame (some df) with e | o
  · exact absurd hp (prepare_no_error df hH hL hC e)
  · rcases o with _ | d'
    · rfl
    · have hlen := hshort' d' hp
      simp only [if_pos hlen]

/-- C9 witness: `get_signal_insufficient` on a one-bar frame (1 < 60). -/
theorem get_signal_insufficient_witness :
    (dfShortW.hasHigh = true ∧ dfShortW.hasLow = true ∧
      dfShortW.hasClose = true ∧
      dfShortW.rows.length < MIN_CANDLES_FOR_SIGNAL) ∧
    get_signal taNone (some dfShortW) 0 =
      .ok ("HOLD", "Недостаточно данных для анализа") :=
  ⟨⟨rfl, rfl, rfl, by decide⟩,
    get_signal_insufficient taNone dfShortW 0 rfl rfl rfl (Or.inl (by decide))⟩

/-- C4: `get_signal` is not exception-free: on a non-empty frame that lacks
a `high` column, `_prepare_dataframe`'s
`dropna(subset=["high", "low", "close"])` raises `KeyError`, and neither
`_prepare_dataframe` nor `get_signal` catches it, so the exception escapes
the public entry point instead of degrading to HOLD. -/
theorem get_signal_raises_on_missing_column :
    get_signal taNone (some dfNoHighC4) 100 = .error PyError.keyError := rfl

end Scalpbot
